import Mathlib

/-!
Shallow embedding of the accounting core of the tb-typescript-port
repository: the types in `src/types.ts`, the pure validators in
`src/validation.ts`, the id utilities in `src/id.ts`, and the
`createTransfers` / `createAccounts` batch processing of the database
backends (`src/database/turso-database.ts` and `src/database/index.ts`,
whose transfer pipelines are identical except that only the Turso
backend maintains the `pending_transfers` status table).

TypeScript `bigint` fields are embedded as `Int` (JS bigints are
arbitrary-precision and signed); `number` fields used only with
equality and ordering are also `Int`; `flags` fields, used bitwise,
are `Nat`.  Database tables become lists threaded through the batch
loop; `Date.now()` becomes an explicit `now` parameter held fixed for
the duration of one batch.
-/

set_option maxRecDepth 20000

-- `AccountFlags` from `src/types.ts`.
namespace AccountFlags

def linked : Nat := 1 <<< 0

def debits_must_not_exceed_credits : Nat := 1 <<< 1

def credits_must_not_exceed_debits : Nat := 1 <<< 2

def history : Nat := 1 <<< 3

def imported : Nat := 1 <<< 4

def closed : Nat := 1 <<< 5

end AccountFlags

-- `TransferFlags` from `src/types.ts`.
namespace TransferFlags

def linked : Nat := 1 <<< 0

def pending : Nat := 1 <<< 1

def post_pending_transfer : Nat := 1 <<< 2

def void_pending_transfer : Nat := 1 <<< 3

def balancing_debit : Nat := 1 <<< 4

def balancing_credit : Nat := 1 <<< 5

def closing_debit : Nat := 1 <<< 6

def closing_credit : Nat := 1 <<< 7

def imported : Nat := 1 <<< 8

end TransferFlags

/-- The `Account` interface of `src/types.ts`. -/
structure Account where
  id : Int
  debits_pending : Int
  debits_posted : Int
  credits_pending : Int
  credits_posted : Int
  user_data_128 : Int
  user_data_64 : Int
  user_data_32 : Int
  reserved : Int
  ledger : Int
  code : Int
  flags : Nat
  timestamp : Int
deriving DecidableEq

/-- The `Transfer` interface of `src/types.ts`. -/
structure Transfer where
  id : Int
  debit_account_id : Int
  credit_account_id : Int
  amount : Int
  pending_id : Int
  user_data_128 : Int
  user_data_64 : Int
  user_data_32 : Int
  timeout : Int
  ledger : Int
  code : Int
  flags : Nat
  timestamp : Int
deriving DecidableEq

/-- `CreateAccountError` from `src/types.ts` (constructors only; the
numeric codes play no role in the logic). -/
inductive CreateAccountError where
  | ok
  | linked_event_failed
  | linked_event_chain_open
  | timestamp_must_be_zero
  | reserved_field
  | reserved_flag
  | id_must_not_be_zero
  | id_must_not_be_int_max
  | exists_with_different_flags
  | exists_with_different_user_data_128
  | exists_with_different_user_data_64
  | exists_with_different_user_data_32
  | exists_with_different_ledger
  | exists_with_different_code
  | exists
  | flags_are_mutually_exclusive
  | debits_pending_must_be_zero
  | debits_posted_must_be_zero
  | credits_pending_must_be_zero
  | credits_posted_must_be_zero
  | ledger_must_not_be_zero
  | code_must_not_be_zero
deriving DecidableEq

/-- `CreateTransferError` from `src/types.ts` (the constructors the
port can reach, plus the linked-chain codes it declares). -/
inductive CreateTransferError where
  | ok
  | linked_event_failed
  | linked_event_chain_open
  | timestamp_must_be_zero
  | reserved_flag
  | id_must_not_be_zero
  | id_must_not_be_int_max
  | exists_with_different_flags
  | exists_with_different_pending_id
  | exists_with_different_timeout
  | exists_with_different_debit_account_id
  | exists_with_different_credit_account_id
  | exists_with_different_amount
  | exists_with_different_user_data_128
  | exists_with_different_user_data_64
  | exists_with_different_user_data_32
  | exists_with_different_ledger
  | exists_with_different_code
  | exists
  | flags_are_mutually_exclusive
  | debit_account_id_must_not_be_zero
  | debit_account_id_must_not_be_int_max
  | credit_account_id_must_not_be_zero
  | credit_account_id_must_not_be_int_max
  | accounts_must_be_different
  | pending_id_must_be_zero
  | pending_id_must_not_be_zero
  | pending_id_must_not_be_int_max
  | pending_id_must_be_different
  | timeout_reserved_for_pending_transfer
  | ledger_must_not_be_zero
  | code_must_not_be_zero
  | debit_account_not_found
  | credit_account_not_found
  | accounts_must_have_the_same_ledger
  | transfer_must_have_the_same_ledger_as_accounts
  | pending_transfer_not_found
  | pending_transfer_not_pending
  | pending_transfer_has_different_debit_account_id
  | pending_transfer_has_different_credit_account_id
  | pending_transfer_has_different_ledger
  | pending_transfer_has_different_code
  | exceeds_pending_transfer_amount
  | pending_transfer_has_different_amount
  | debit_account_already_closed
  | credit_account_already_closed
  | overflows_debits_pending
  | overflows_credits_pending
  | overflows_debits_posted
  | overflows_credits_posted
  | overflows_debits
  | overflows_credits
  | overflows_timeout
  | exceeds_credits
  | exceeds_debits
deriving DecidableEq

/-- `TransferPendingStatus` from `src/types.ts`. -/
inductive TransferPendingStatus where
  | none
  | pending
  | posted
  | voided
  | expired
deriving DecidableEq

/-- `amount_max` from `src/types.ts`: `2^128 - 1`. -/
def amount_max : Int := 2 ^ 128 - 1

/-- `validateAccount` from `src/validation.ts`. -/
def validateAccount (account : Account) : CreateAccountError :=
  if account.id = 0 then .id_must_not_be_zero
  else if account.id ≥ 2 ^ 128 - 1 then .id_must_not_be_int_max
  else if account.timestamp ≠ 0 then .timestamp_must_be_zero
  else if account.reserved ≠ 0 then .reserved_field
  else if account.ledger = 0 then .ledger_must_not_be_zero
  else if account.code = 0 then .code_must_not_be_zero
  else if account.debits_pending ≠ 0 then .debits_pending_must_be_zero
  else if account.debits_posted ≠ 0 then .debits_posted_must_be_zero
  else if account.credits_pending ≠ 0 then .credits_pending_must_be_zero
  else if account.credits_posted ≠ 0 then .credits_posted_must_be_zero
  else if account.flags &&&
      (2 ^ 32 - 1 -
        (AccountFlags.linked |||
         AccountFlags.debits_must_not_exceed_credits |||
         AccountFlags.credits_must_not_exceed_debits |||
         AccountFlags.history |||
         AccountFlags.imported |||
         AccountFlags.closed)) ≠ 0 then .reserved_flag
    else if account.flags &&& AccountFlags.debits_must_not_exceed_credits ≠ 0 ∧
        account.flags &&& AccountFlags.credits_must_not_exceed_debits ≠ 0 then
      .flags_are_mutually_exclusive
    else .ok

/-- `validateAccountExists` from `src/validation.ts`. -/
def validateAccountExists (existing new_account : Account) : CreateAccountError :=
  if existing.flags ≠ new_account.flags then .exists_with_different_flags
  else if existing.user_data_128 ≠ new_account.user_data_128 then
    .exists_with_different_user_data_128
  else if existing.user_data_64 ≠ new_account.user_data_64 then
    .exists_with_different_user_data_64
  else if existing.user_data_32 ≠ new_account.user_data_32 then
    .exists_with_different_user_data_32
  else if existing.ledger ≠ new_account.ledger then .exists_with_different_ledger
  else if existing.code ≠ new_account.code then .exists_with_different_code
  else .exists

/-- `validateTransfer` from `src/validation.ts`. -/
def validateTransfer (transfer : Transfer) : CreateTransferError :=
  if transfer.id = 0 then .id_must_not_be_zero
  else if transfer.id ≥ 2 ^ 128 - 1 then .id_must_not_be_int_max
  else if transfer.timestamp ≠ 0 then .timestamp_must_be_zero
  else if transfer.debit_account_id = 0 then .debit_account_id_must_not_be_zero
  else if transfer.debit_account_id ≥ 2 ^ 128 - 1 then
    .debit_account_id_must_not_be_int_max
  else if transfer.credit_account_id = 0 then .credit_account_id_must_not_be_zero
  else if transfer.credit_account_id ≥ 2 ^ 128 - 1 then
    .credit_account_id_must_not_be_int_max
  else if transfer.debit_account_id = transfer.credit_account_id then
    .accounts_must_be_different
  else if transfer.amount = 0 then .exists
  else if transfer.amount > amount_max then .overflows_debits
  else if transfer.ledger = 0 then .ledger_must_not_be_zero
  else if transfer.code = 0 then .code_must_not_be_zero
  else if transfer.flags &&&
      (2 ^ 32 - 1 -
        (TransferFlags.linked |||
         TransferFlags.pending |||
         TransferFlags.post_pending_transfer |||
         TransferFlags.void_pending_transfer |||
         TransferFlags.balancing_debit |||
         TransferFlags.balancing_credit |||
         TransferFlags.closing_debit |||
         TransferFlags.closing_credit |||
         TransferFlags.imported)) ≠ 0 then .reserved_flag
  else if transfer.flags &&&
        (TransferFlags.pending ||| TransferFlags.post_pending_transfer |||
          TransferFlags.void_pending_transfer) ≠ 0 ∧
      (transfer.flags &&&
        (TransferFlags.pending ||| TransferFlags.post_pending_transfer |||
          TransferFlags.void_pending_transfer)) &&&
      ((transfer.flags &&&
        (TransferFlags.pending ||| TransferFlags.post_pending_transfer |||
          TransferFlags.void_pending_transfer)) - 1) ≠ 0 then
    .flags_are_mutually_exclusive
  else if transfer.flags &&& (TransferFlags.balancing_debit ||| TransferFlags.balancing_credit)
      = TransferFlags.balancing_debit ||| TransferFlags.balancing_credit then
    .flags_are_mutually_exclusive
  else if transfer.flags &&& (TransferFlags.closing_debit ||| TransferFlags.closing_credit)
      = TransferFlags.closing_debit ||| TransferFlags.closing_credit then
    .flags_are_mutually_exclusive
  else if transfer.flags &&& TransferFlags.pending ≠ 0 then
    if transfer.pending_id ≠ 0 then .pending_id_must_be_zero
    else if transfer.timeout > 0 ∧ transfer.timeout > 2 ^ 32 - 1 then .overflows_timeout
    else .ok
  else if transfer.flags &&&
      (TransferFlags.post_pending_transfer ||| TransferFlags.void_pending_transfer) ≠ 0 then
    if transfer.pending_id = 0 then .pending_id_must_not_be_zero
    else if transfer.pending_id ≥ 2 ^ 128 - 1 then .pending_id_must_not_be_int_max
    else if transfer.pending_id = transfer.id then .pending_id_must_be_different
    else if transfer.timeout ≠ 0 then .timeout_reserved_for_pending_transfer
    else .ok
  else if transfer.pending_id ≠ 0 then .pending_id_must_be_zero
  else if transfer.timeout ≠ 0 then .timeout_reserved_for_pending_transfer
  else .ok

/-- `validateTransferExists` from `src/validation.ts`. -/
def validateTransferExists (existing new_transfer : Transfer) : CreateTransferError :=
  if existing.flags ≠ new_transfer.flags then .exists_with_different_flags
  else if existing.debit_account_id ≠ new_transfer.debit_account_id then
    .exists_with_different_debit_account_id
  else if existing.credit_account_id ≠ new_transfer.credit_account_id then
    .exists_with_different_credit_account_id
  else if existing.amount ≠ new_transfer.amount then .exists_with_different_amount
  else if existing.pending_id ≠ new_transfer.pending_id then
    .exists_with_different_pending_id
  else if existing.user_data_128 ≠ new_transfer.user_data_128 then
    .exists_with_different_user_data_128
  else if existing.user_data_64 ≠ new_transfer.user_data_64 then
    .exists_with_different_user_data_64
  else if existing.user_data_32 ≠ new_transfer.user_data_32 then
    .exists_with_different_user_data_32
  else if existing.timeout ≠ new_transfer.timeout then .exists_with_different_timeout
  else if existing.ledger ≠ new_transfer.ledger then .exists_with_different_ledger
  else if existing.code ≠ new_transfer.code then .exists_with_different_code
  else .exists

/-- `canDebitAccount` from `src/validation.ts`. -/
def canDebitAccount (account : Account) (amount : Int) : Bool :=
  if account.flags &&& AccountFlags.debits_must_not_exceed_credits ≠ 0 then
    account.debits_posted + amount ≤ account.credits_posted
  else true

/-- `canCreditAccount` from `src/validation.ts`. -/
def canCreditAccount (account : Account) (amount : Int) : Bool :=
  if account.flags &&& AccountFlags.credits_must_not_exceed_debits ≠ 0 then
    account.credits_posted + amount ≤ account.debits_posted
  else true

/-- `validateTransferAccounts` from `src/validation.ts`.  The two
account arguments are `Option`s because the caller passes possibly
missing lookups (the TS function tests `!debitAccount`). -/
def validateTransferAccounts (transfer : Transfer)
    (debitAccount creditAccount : Option Account)
    (pendingTransfer : Option Transfer)
    (pendingStatus : Option TransferPendingStatus) : CreateTransferError :=
  match debitAccount with
  | .none => .debit_account_not_found
  | .some debitAccount =>
    match creditAccount with
    | .none => .credit_account_not_found
    | .some creditAccount =>
      if debitAccount.ledger ≠ creditAccount.ledger then
        .accounts_must_have_the_same_ledger
      else if transfer.ledger ≠ debitAccount.ledger then
        .transfer_must_have_the_same_ledger_as_accounts
      else if debitAccount.flags &&& AccountFlags.closed ≠ 0 then
        .debit_account_already_closed
      else if creditAccount.flags &&& AccountFlags.closed ≠ 0 then
        .credit_account_already_closed
      else
        let pendingCheck : CreateTransferError :=
          if transfer.flags &&&
              (TransferFlags.post_pending_transfer ||| TransferFlags.void_pending_transfer) ≠ 0 then
            match pendingTransfer with
            | .none => .pending_transfer_not_found
            | .some pendingTransfer =>
              if pendingStatus ≠ some .pending then .pending_transfer_not_pending
              else if pendingTransfer.debit_account_id ≠ transfer.debit_account_id then
                .pending_transfer_has_different_debit_account_id
              else if pendingTransfer.credit_account_id ≠ transfer.credit_account_id then
                .pending_transfer_has_different_credit_account_id
              else if pendingTransfer.ledger ≠ transfer.ledger then
                .pending_transfer_has_different_ledger
              else if pendingTransfer.code ≠ transfer.code then
                .pending_transfer_has_different_code
              else if transfer.flags &&& TransferFlags.post_pending_transfer ≠ 0 then
                if transfer.amount > pendingTransfer.amount then
                  .exceeds_pending_transfer_amount
                else .ok
              else if transfer.flags &&& TransferFlags.void_pending_transfer ≠ 0 then
                if transfer.amount ≠ pendingTransfer.amount then
                  .pending_transfer_has_different_amount
                else .ok
              else .ok
          else .ok
        if pendingCheck ≠ .ok then pendingCheck
        else if ¬ canDebitAccount debitAccount transfer.amount then .exceeds_credits
        else if ¬ canCreditAccount creditAccount transfer.amount then .exceeds_debits
        else .ok

/-- `wouldOverflowAccount` from `src/validation.ts`. -/
def wouldOverflowAccount (account : Account) (debitAmount creditAmount : Int) :
    Option CreateTransferError :=
  if account.debits_posted + debitAmount > (2 : Int) ^ 128 - 1 then
    some .overflows_debits_posted
  else if account.credits_posted + creditAmount > (2 : Int) ^ 128 - 1 then
    some .overflows_credits_posted
  else if account.debits_posted + account.debits_pending + debitAmount > (2 : Int) ^ 128 - 1 then
    some .overflows_debits
  else if account.credits_posted + account.credits_pending + creditAmount > (2 : Int) ^ 128 - 1 then
    some .overflows_credits
  else none

/-- The ledger database visible to one batch: the `accounts` and
`transfers` tables and the `pending_transfers` status table (id,
status), keyed by transfer id.  SQL `SELECT ... WHERE id = ?` becomes
`List.find?`, `UPDATE ... WHERE id = ?` a `List.map` guarded on id. -/
structure LedgerState where
  accounts : List Account
  transfers : List Transfer
  pendingStatuses : List (Int × TransferPendingStatus)
deriving DecidableEq

/-- `lookupAccount` (both backends): `SELECT * FROM accounts WHERE id = ?`. -/
def lookupAccount (s : LedgerState) (id : Int) : Option Account :=
  s.accounts.find? (fun a => a.id == id)

/-- `lookupTransfer` (both backends): `SELECT * FROM transfers WHERE id = ?`. -/
def lookupTransfer (s : LedgerState) (id : Int) : Option Transfer :=
  s.transfers.find? (fun t => t.id == id)

/-- `SELECT status FROM pending_transfers WHERE id = ?`. -/
def lookupPendingStatus (s : LedgerState) (id : Int) : Option TransferPendingStatus :=
  (s.pendingStatuses.find? (fun p => p.1 == id)).map (fun p => p.2)

/-- `UPDATE pending_transfers SET status = ? WHERE id = ?`. -/
def setPendingStatus (s : LedgerState) (id : Int) (st : TransferPendingStatus) : LedgerState :=
  { s with pendingStatuses :=
      s.pendingStatuses.map (fun p => if p.1 = id then (p.1, st) else p) }

/-- `UPDATE accounts SET ... WHERE id = ?`: apply `f` to every account
row whose id matches. -/
def updateAccount (s : LedgerState) (id : Int) (f : Account → Account) : LedgerState :=
  { s with accounts := s.accounts.map (fun a => if a.id = id then f a else a) }

/-- `getMaxDebitAmount` (identical in the MySQL and Turso backends). -/
def getMaxDebitAmount (account : Account) : Int :=
  if account.flags &&& AccountFlags.debits_must_not_exceed_credits ≠ 0 then
    let availableBalance := account.credits_posted - account.debits_posted
    if availableBalance > 0 then availableBalance else 0
  else 2 ^ 63 - 1

/-- `getMaxCreditAmount` (identical in the MySQL and Turso backends). -/
def getMaxCreditAmount (account : Account) : Int :=
  if account.flags &&& AccountFlags.credits_must_not_exceed_debits ≠ 0 then
    let availableBalance := account.debits_posted - account.credits_posted
    if availableBalance > 0 then availableBalance else 0
  else 2 ^ 63 - 1

/-- `calculateBalancingAmount` (identical in both backends). -/
def calculateBalancingAmount (transfer : Transfer) (debitAccount creditAccount : Account) : Int :=
  if transfer.flags &&& TransferFlags.balancing_debit ≠ 0 then
    let maxDebitAmount := getMaxDebitAmount debitAccount
    if maxDebitAmount < transfer.amount then maxDebitAmount else transfer.amount
  else if transfer.flags &&& TransferFlags.balancing_credit ≠ 0 then
    let maxCreditAmount := getMaxCreditAmount creditAccount
    if maxCreditAmount < transfer.amount then maxCreditAmount else transfer.amount
  else transfer.amount

/-- `updateAccountBalancesInTransaction` (both backends apply the same
four `UPDATE accounts` shapes; the `account_balances` history snapshot
insert touches a separate table and no account row, so it is not part
of this state). -/
def updateAccountBalances (s : LedgerState) (transfer : Transfer) : LedgerState :=
  if transfer.flags &&& TransferFlags.pending ≠ 0 then
    let s1 := updateAccount s transfer.debit_account_id
      (fun a => { a with debits_pending := a.debits_pending + transfer.amount })
    updateAccount s1 transfer.credit_account_id
      (fun a => { a with credits_pending := a.credits_pending + transfer.amount })
  else if transfer.flags &&& TransferFlags.post_pending_transfer ≠ 0 then
    let s1 := updateAccount s transfer.debit_account_id
      (fun a => { a with debits_pending := a.debits_pending - transfer.amount,
                         debits_posted := a.debits_posted + transfer.amount })
    updateAccount s1 transfer.credit_account_id
      (fun a => { a with credits_pending := a.credits_pending - transfer.amount,
                         credits_posted := a.credits_posted + transfer.amount })
  else if transfer.flags &&& TransferFlags.void_pending_transfer ≠ 0 then
    let s1 := updateAccount s transfer.debit_account_id
      (fun a => { a with debits_pending := a.debits_pending - transfer.amount })
    updateAccount s1 transfer.credit_account_id
      (fun a => { a with credits_pending := a.credits_pending - transfer.amount })
  else
    let s1 := updateAccount s transfer.debit_account_id
      (fun a => { a with debits_posted := a.debits_posted + transfer.amount })
    updateAccount s1 transfer.credit_account_id
      (fun a => { a with credits_posted := a.credits_posted + transfer.amount })

/-- One iteration of the `createTransfers` batch loop
(`TursoDatabase.createTransfers`; `MySQLDatabase.createTransfers` is
identical except that it never writes the `pending_transfers` table).
`now` stands for `Date.now()`, held fixed across the batch; `last` is
the running `lastTimestamp`.  Returns the new state, the new
`lastTimestamp` and the per-element error, `none` both on success and
on the silent balancing skip (neither pushes an error). -/
def createTransferOne (now : Int) (s : LedgerState) (last : Int) (t : Transfer) :
    LedgerState × Int × Option CreateTransferError :=
  let validationError := validateTransfer t
  if validationError ≠ .ok then (s, last, some validationError)
  else
    match lookupTransfer s t.id with
    | some existingTransfer => (s, last, some (validateTransferExists existingTransfer t))
    | none =>
      let debitAccount := lookupAccount s t.debit_account_id
      let creditAccount := lookupAccount s t.credit_account_id
      let pendingTransfer :=
        if t.flags &&& (TransferFlags.post_pending_transfer |||
            TransferFlags.void_pending_transfer) ≠ 0 then
          lookupTransfer s t.pending_id
        else none
      let pendingStatus :=
        match pendingTransfer with
        | some _ => lookupPendingStatus s t.pending_id
        | none => none
      let clamped : Option Transfer :=
        if t.flags &&& (TransferFlags.balancing_debit ||| TransferFlags.balancing_credit) ≠ 0 then
          match debitAccount, creditAccount with
          | some d, some c =>
            let clampedAmount := calculateBalancingAmount t d c
            if clampedAmount = 0 then none
            else some { t with amount := clampedAmount }
          | _, _ => some t
        else some t
      match clamped with
      | none => (s, last, none)
      | some t1 =>
        let accountValidationError :=
          validateTransferAccounts t1 debitAccount creditAccount pendingTransfer pendingStatus
        if accountValidationError ≠ .ok then (s, last, some accountValidationError)
        else
          match debitAccount, creditAccount with
          | some d, some c =>
            let debitAmount := if t1.flags &&& TransferFlags.pending ≠ 0 then 0 else t1.amount
            let creditAmount := debitAmount
            match wouldOverflowAccount d debitAmount 0 with
            | some e => (s, last, some e)
            | none =>
              match wouldOverflowAccount c 0 creditAmount with
              | some e => (s, last, some e)
              | none =>
                let currentTime := if now * 1000000 ≤ last then last + 1 else now * 1000000
                let t2 := { t1 with timestamp := currentTime }
                let s1 := { s with transfers := s.transfers ++ [t2] }
                let s2 :=
                  if t2.flags &&& TransferFlags.pending ≠ 0 then
                    { s1 with pendingStatuses := s1.pendingStatuses ++ [(t2.id, .pending)] }
                  else s1
                let s3 :=
                  if t2.flags &&& TransferFlags.post_pending_transfer ≠ 0 then
                    setPendingStatus s2 t2.pending_id .posted
                  else s2
                let s4 :=
                  if t2.flags &&& TransferFlags.void_pending_transfer ≠ 0 then
                    setPendingStatus s3 t2.pending_id .voided
                  else s3
                (updateAccountBalances s4 t2, currentTime, none)
          | _, _ => (s, last, none)

/-- The `createTransfers` batch loop, index by index. -/
def createTransfersGo (now : Int) (s : LedgerState) (last : Int) (i : Nat)
    (batch : List Transfer) (errors : List (Nat × CreateTransferError)) :
    LedgerState × List (Nat × CreateTransferError) :=
  match batch with
  | [] => (s, errors)
  | t :: rest =>
    match createTransferOne now s last t with
    | (s1, last1, some e) => createTransfersGo now s1 last1 (i + 1) rest (errors ++ [(i, e)])
    | (s1, last1, none) => createTransfersGo now s1 last1 (i + 1) rest errors

/-- `createTransfers` of the database backends: thread the state
through the batch, collecting one `(index, result)` entry per
rejected element. -/
def createTransfers (now : Int) (s : LedgerState) (batch : List Transfer) :
    LedgerState × List (Nat × CreateTransferError) :=
  createTransfersGo now s 0 0 batch []

/-- One iteration of the `createAccounts` batch loop (both backends):
validate, reconcile an existing id, otherwise insert with the
assigned monotonic timestamp. -/
def createAccountOne (now : Int) (s : LedgerState) (last : Int) (a : Account) :
    LedgerState × Int × Option CreateAccountError :=
  let validationError := validateAccount a
  if validationError ≠ .ok then (s, last, some validationError)
  else
    match lookupAccount s a.id with
    | some existingAccount => (s, last, some (validateAccountExists existingAccount a))
    | none =>
      let currentTime := if now * 1000000 ≤ last then last + 1 else now * 1000000
      let a1 := { a with timestamp := currentTime }
      ({ s with accounts := s.accounts ++ [a1] }, currentTime, none)

/-- The `createAccounts` batch loop, index by index. -/
def createAccountsGo (now : Int) (s : LedgerState) (last : Int) (i : Nat)
    (batch : List Account) (errors : List (Nat × CreateAccountError)) :
    LedgerState × List (Nat × CreateAccountError) :=
  match batch with
  | [] => (s, errors)
  | a :: rest =>
    match createAccountOne now s last a with
    | (s1, last1, some e) => createAccountsGo now s1 last1 (i + 1) rest (errors ++ [(i, e)])
    | (s1, last1, none) => createAccountsGo now s1 last1 (i + 1) rest errors

/-- `createAccounts` of the database backends. -/
def createAccounts (now : Int) (s : LedgerState) (batch : List Account) :
    LedgerState × List (Nat × CreateAccountError) :=
  createAccountsGo now s 0 0 batch []

/-- The mutable state of the `id()` generator in `src/id.ts`:
`idLastTimestamp` and the 80-bit random counter held in bytes 0..9 of
the module-level buffer (the timestamp bytes 10..15 are rewritten on
every call before being read, so they are not part of the state). -/
structure IdState where
  last : Nat
  rand : Nat
deriving DecidableEq

/-- One call of `id()` from `src/id.ts`.  `now` is `Date.now()` and
`fresh` the 80-bit value drawn by `crypto.getRandomValues` (used only
when the millisecond advances).  Returns `none` when the 80-bit
increment carries out of the buffer, where the TS code throws
`Random bits overflow on monotonic increment`; otherwise the returned
128-bit id is `storedTimestamp * 2^80 + incrementedRandom`, matching
the little-endian byte layout (random in bytes 0..9, the low 48 bits
of the timestamp in bytes 10..15). -/
def idStep (s : IdState) (now fresh : Nat) : Option (Nat × IdState) :=
  let timestamp := if now ≤ s.last then s.last else now
  let last1 := if now ≤ s.last then s.last else now
  let r0 := if now ≤ s.last then s.rand else fresh
  if r0 + 1 < 2 ^ 80 then
    let stored := timestamp % 2 ^ 16 + timestamp / 2 ^ 16 % 2 ^ 32 * 2 ^ 16
    some (stored * 2 ^ 80 + (r0 + 1), { last := last1, rand := r0 + 1 })
  else none

/-- Run a sequence of `id()` calls, stopping at the first throw;
each list element supplies that call's `(Date.now(), fresh random)`. -/
def runId (s : IdState) (calls : List (Nat × Nat)) : List Nat :=
  match calls with
  | [] => []
  | (now, fresh) :: rest =>
    match idStep s now fresh with
    | none => []
    | some (v, s1) => v :: runId s1 rest

/-- `createId` from `src/id.ts`: random (masked to 80 bits) in bytes
0..9 little-endian, timestamp low 16 bits in bytes 10..11 and next 32
bits in bytes 12..15, read back as `hi * 2^64 + lo`. -/
def createId (timestamp random : Nat) : Nat :=
  let randomMasked := random % 2 ^ 80
  let randomLo := randomMasked % 2 ^ 64
  let randomHi := randomMasked / 2 ^ 64
  let timestampLo := timestamp % 2 ^ 16
  let timestampHi := timestamp / 2 ^ 16 % 2 ^ 32
  (randomHi % 2 ^ 16 + timestampLo * 2 ^ 16 + timestampHi * 2 ^ 32) * 2 ^ 64 + randomLo

/-- `parseId` from `src/id.ts`: split the 128-bit value into the
little-endian 16-byte buffer, read the timestamp from bytes 10..15
and the random component from bytes 0..9 (masked to 80 bits). -/
def parseId (id : Nat) : Nat × Nat :=
  let lo := id % 2 ^ 64
  let hi := id / 2 ^ 64
  let timestampLo := hi / 2 ^ 16 % 2 ^ 16
  let timestampHi := hi / 2 ^ 32 % 2 ^ 32
  let timestamp := timestampLo + timestampHi * 2 ^ 16
  let randomLo := lo
  let randomHi := hi % 2 ^ 16
  (timestamp, (randomLo + randomHi * 2 ^ 64) % 2 ^ 80)

/-- `isValidId` from `src/id.ts`. -/
def isValidId (id : Int) : Bool :=
  id > 0 ∧ id < 2 ^ 128 - 1

/-! ### Test fixtures for concrete scenarios -/

/-- A fresh account on ledger 1 with code 1 and the given flags, as the
backends store it after creation (system-assigned timestamp). -/
def mkAccount (i : Int) (fl : Nat) : Account :=
  { id := i, debits_pending := 0, debits_posted := 0, credits_pending := 0, credits_posted := 0,
    user_data_128 := 0, user_data_64 := 0, user_data_32 := 0, reserved := 0,
    ledger := 1, code := 1, flags := fl, timestamp := 100 }

/-- A create-transfer request on ledger 1 with code 1. -/
def mkTransfer (i dr cr amt : Int) (fl : Nat) : Transfer :=
  { id := i, debit_account_id := dr, credit_account_id := cr, amount := amt, pending_id := 0,
    user_data_128 := 0, user_data_64 := 0, user_data_32 := 0, timeout := 0,
    ledger := 1, code := 1, flags := fl, timestamp := 0 }

/-- Account 1 constrained by `debits_must_not_exceed_credits`, account 2 plain. -/
def stBalancing : LedgerState :=
  { accounts := [mkAccount 1 AccountFlags.debits_must_not_exceed_credits, mkAccount 2 0],
    transfers := [], pendingStatuses := [] }

/-- Two plain unconstrained accounts. -/
def stPlain : LedgerState :=
  { accounts := [mkAccount 1 0, mkAccount 2 0], transfers := [], pendingStatuses := [] }

/-- Account 1 with `debits_posted` within 100 of the 128-bit maximum. -/
def stNearOverflow : LedgerState :=
  { accounts := [{ mkAccount 1 0 with debits_posted := 2 ^ 128 - 100 }, mkAccount 2 0],
    transfers := [], pendingStatuses := [] }

/-- Account 1 with `debits_pending` already at the 128-bit maximum. -/
def stPendingFull : LedgerState :=
  { accounts := [{ mkAccount 1 0 with debits_pending := 2 ^ 128 - 1 }, mkAccount 2 0],
    transfers := [], pendingStatuses := [] }

/-! ### C1: balancing transfers -/

/-- C1 counterexample: the claim says an account with no
balance-constraint flag leaves a balancing transfer's amount
unclamped.  In the code `getMaxDebitAmount` caps an unconstrained
account at `2^63 - 1`: a `balancing_debit` request for `2^63` between
two unconstrained accounts is accepted but posts only `2^63 - 1`. -/
theorem c1_counterexample :
    (createTransfers 1 stPlain [mkTransfer 10 1 2 (2 ^ 63) TransferFlags.balancing_debit]).2 = []
    ∧ ((createTransfers 1 stPlain
        [mkTransfer 10 1 2 (2 ^ 63) TransferFlags.balancing_debit]).1.accounts.map
          (fun a => a.debits_posted)) = [2 ^ 63 - 1, 0]
    ∧ ((2 : Int) ^ 63 - 1) ≠ 2 ^ 63 := by
  refine ⟨by decide, by decide, by decide⟩

/-- C1 (amended): for a `balancing_debit` (symmetrically
`balancing_credit`) element whose two accounts both exist, the amount
is replaced by `min(requested, capacity)` where the capacity of a
debit-constrained account is `max(0, credits_posted - debits_posted)`
(symmetrically for credit) but the capacity of an unconstrained
account is `2^63 - 1`, not unbounded; a zero resolved amount is a
silent no-op (no error entry, no state change); the spec scenario
(balancing debit of 2000 against 1000 seeded credits posts exactly
1000) holds. -/
theorem c1_balancing_resolution :
    (∀ (t : Transfer) (d c : Account), t.flags &&& TransferFlags.balancing_debit ≠ 0 →
      calculateBalancingAmount t d c =
        min t.amount
          (if d.flags &&& AccountFlags.debits_must_not_exceed_credits ≠ 0 then
            max 0 (d.credits_posted - d.debits_posted)
          else 2 ^ 63 - 1))
    ∧ (∀ (t : Transfer) (d c : Account), t.flags &&& TransferFlags.balancing_debit = 0 →
      t.flags &&& TransferFlags.balancing_credit ≠ 0 →
      calculateBalancingAmount t d c =
        min t.amount
          (if c.flags &&& AccountFlags.credits_must_not_exceed_debits ≠ 0 then
            max 0 (c.debits_posted - c.credits_posted)
          else 2 ^ 63 - 1))
    ∧ (∀ (now : Int) (s : LedgerState) (last : Int) (t : Transfer) (d c : Account),
      validateTransfer t = .ok → lookupTransfer s t.id = none →
      lookupAccount s t.debit_account_id = some d →
      lookupAccount s t.credit_account_id = some c →
      t.flags &&& (TransferFlags.balancing_debit ||| TransferFlags.balancing_credit) ≠ 0 →
      calculateBalancingAmount t d c = 0 →
      createTransferOne now s last t = (s, last, none))
    ∧ (createTransfers 1 stBalancing
        [mkTransfer 10 2 1 1000 0, mkTransfer 11 1 2 2000 TransferFlags.balancing_debit]).2 = []
    ∧ ((createTransfers 1 stBalancing
        [mkTransfer 10 2 1 1000 0,
         mkTransfer 11 1 2 2000 TransferFlags.balancing_debit]).1.accounts.map
          (fun a => (a.id, a.debits_posted))) = [(1, 1000), (2, 1000)] := by
  refine ⟨?_, ?_, ?_, by decide, by decide⟩
  · intro t d c h
    unfold calculateBalancingAmount getMaxDebitAmount
    simp only [h, if_true, if_pos, ne_eq, not_false_iff]
    split_ifs <;> simp [min_def, max_def] <;> omega
  · intro t d c h0 h1
    unfold calculateBalancingAmount getMaxCreditAmount
    simp only [h0, h1, ne_eq, ite_false, ite_true, not_true, not_false_iff]
    split_ifs <;> simp_all [min_def, max_def] <;> omega
  · intro now s last t d c hv hlt hda hdc hbal hzero
    unfold createTransferOne
    simp [hv, hlt, hda, hdc, hbal, hzero]

/-- Witness for C1: a balancing debit against a constrained account
with zero capacity is skipped silently. -/
theorem c1_balancing_resolution_witness :
    createTransferOne 1 stBalancing 0 (mkTransfer 12 1 2 50 TransferFlags.balancing_debit)
      = (stBalancing, 0, none) :=
  c1_balancing_resolution.2.2.1 1 stBalancing 0
    (mkTransfer 12 1 2 50 TransferFlags.balancing_debit)
    (mkAccount 1 AccountFlags.debits_must_not_exceed_credits) (mkAccount 2 0)
    (by decide) (by decide) (by decide) (by decide) (by decide) (by decide)

/-! ### C3: overflow boundary -/

/-- C3 counterexample: the claim says a plain transfer of amount 100
into an account with `debits_posted = 2^128 - 100` is accepted, but
`2^128 - 100 + 100` already exceeds the 128-bit maximum `2^128 - 1`,
so `wouldOverflowAccount` rejects it and the state is untouched. -/
theorem c3_counterexample :
    (createTransfers 1 stNearOverflow [mkTransfer 10 1 2 100 0]).2
      = [(0, CreateTransferError.overflows_debits_posted)]
    ∧ (createTransfers 1 stNearOverflow [mkTransfer 10 1 2 100 0]).1 = stNearOverflow := by
  refine ⟨by decide, by decide⟩

/-- C3 (amended): against `debits_posted = 2^128 - 100` the acceptance
boundary is amount 99 (`sum = 2^128 - 1`); amounts 100 and 101 are
rejected with `overflows_debits_posted` leaving all balances
unchanged; and `wouldOverflowAccount` passes exactly when
`debits_posted + amount`, `credits_posted + amount`,
`debits_posted + debits_pending + amount` and the credit-side
equivalents all stay within the 128-bit domain. -/
theorem c3_overflow_boundary :
    (createTransfers 1 stNearOverflow [mkTransfer 10 1 2 99 0]).2 = []
    ∧ ((createTransfers 1 stNearOverflow [mkTransfer 10 1 2 99 0]).1.accounts.map
        (fun a => a.debits_posted)) = [2 ^ 128 - 1, 0]
    ∧ (createTransfers 1 stNearOverflow [mkTransfer 10 1 2 101 0]).2
        = [(0, CreateTransferError.overflows_debits_posted)]
    ∧ (createTransfers 1 stNearOverflow [mkTransfer 10 1 2 101 0]).1 = stNearOverflow
    ∧ (∀ (a : Account) (da ca : Int),
        wouldOverflowAccount a da ca = none ↔
          a.debits_posted + da ≤ 2 ^ 128 - 1 ∧ a.credits_posted + ca ≤ 2 ^ 128 - 1 ∧
          a.debits_posted + a.debits_pending + da ≤ 2 ^ 128 - 1 ∧
          a.credits_posted + a.credits_pending + ca ≤ 2 ^ 128 - 1) := by
  refine ⟨by decide, by decide, by decide, by decide, ?_⟩
  intro a da ca
  unfold wouldOverflowAccount
  split_ifs <;> simp <;> omega

/-! ### Errors actually emitted by the transfer pipeline (for C2 and C10) -/

/-- The error codes the `createTransfers` pipeline can never produce:
the linked-chain codes (no chain handling exists in either backend)
and the pending-balance overflow codes (the overflow check is always
invoked with the pending amounts replaced by zero). -/
def EmittedTransferError (e : CreateTransferError) : Prop :=
  e ≠ .linked_event_failed ∧ e ≠ .linked_event_chain_open ∧
  e ≠ .overflows_debits_pending ∧ e ≠ .overflows_credits_pending

instance (e : CreateTransferError) : Decidable (EmittedTransferError e) := by
  unfold EmittedTransferError
  infer_instance

lemma ite_emitted {c : Prop} [Decidable c] {x y : CreateTransferError}
    (hx : EmittedTransferError x) (hy : EmittedTransferError y) :
    EmittedTransferError (if c then x else y) := by
  split
  · exact hx
  · exact hy

lemma validateTransfer_emitted (t : Transfer) : EmittedTransferError (validateTransfer t) := by
  unfold validateTransfer
  repeat (first | decide | apply ite_emitted)

lemma validateTransferExists_emitted (e t : Transfer) :
    EmittedTransferError (validateTransferExists e t) := by
  unfold EmittedTransferError validateTransferExists
  simp only [ne_eq, ite_not]
  repeat' split
  all_goals decide

lemma validateTransferAccounts_emitted (t : Transfer) (dA cA : Option Account)
    (pT : Option Transfer) (pS : Option TransferPendingStatus) :
    EmittedTransferError (validateTransferAccounts t dA cA pT pS) := by
  unfold validateTransferAccounts
  cases dA <;> cases cA <;> cases pT <;> dsimp only <;>
    repeat (first | decide | apply ite_emitted)

lemma wouldOverflowAccount_emitted (a : Account) (da ca : Int) (e : CreateTransferError)
    (h : wouldOverflowAccount a da ca = some e) : EmittedTransferError e := by
  unfold wouldOverflowAccount at h
  split_ifs at h <;> simp only [Option.some.injEq, reduceCtorEq] at h <;>
    subst h <;> exact ⟨by decide, by decide, by decide, by decide⟩

lemma createTransferOne_emitted (now : Int) (s : LedgerState) (last : Int) (t : Transfer)
    (e : CreateTransferError) (h : (createTransferOne now s last t).2.2 = some e) :
    EmittedTransferError e := by
  unfold createTransferOne at h
  by_cases hv : validateTransfer t = CreateTransferError.ok
  case neg =>
    rw [if_pos hv] at h
    simp only [Option.some.injEq] at h
    subst h
    exact validateTransfer_emitted t
  case pos =>
    rw [if_neg (by simp [hv])] at h
    rcases hlt : lookupTransfer s t.id with _ | existing
    case some =>
      rw [hlt] at h
      simp only [Option.some.injEq] at h
      subst h
      exact validateTransferExists_emitted existing t
    case none =>
      rw [hlt] at h
      dsimp only at h
      rcases hcl : (if t.flags &&& (TransferFlags.balancing_debit |||
          TransferFlags.balancing_credit) ≠ 0 then
        match lookupAccount s t.debit_account_id, lookupAccount s t.credit_account_id with
        | some d, some c =>
          if calculateBalancingAmount t d c = 0 then none
          else some { t with amount := calculateBalancingAmount t d c }
        | _, _ => some t
      else some t) with _ | t1
      case none =>
        rw [hcl] at h
        simp at h
      case some =>
        rw [hcl] at h
        dsimp only at h
        by_cases hav : validateTransferAccounts t1 (lookupAccount s t.debit_account_id)
            (lookupAccount s t.credit_account_id)
            (if t.flags &&& (TransferFlags.post_pending_transfer |||
                TransferFlags.void_pending_transfer) ≠ 0 then
              lookupTransfer s t.pending_id
            else none)
            (match (if t.flags &&& (TransferFlags.post_pending_transfer |||
                TransferFlags.void_pending_transfer) ≠ 0 then
              lookupTransfer s t.pending_id
            else none) with
              | some _ => lookupPendingStatus s t.pending_id
              | none => none) = CreateTransferError.ok
        case neg =>
          rw [if_pos hav] at h
          simp only [Option.some.injEq] at h
          subst h
          exact validateTransferAccounts_emitted _ _ _ _ _
        case pos =>
          rw [if_neg (not_not_intro hav)] at h
          rcases hda : lookupAccount s t.debit_account_id with _ | d <;> rw [hda] at h
          case none =>
            rcases hca : lookupAccount s t.credit_account_id with _ | c <;> rw [hca] at h <;>
              simp at h
          case some =>
            rcases hca : lookupAccount s t.credit_account_id with _ | c <;> rw [hca] at h
            case none => simp at h
            case some =>
              dsimp only at h
              rcases hov1 : wouldOverflowAccount d
                  (if t1.flags &&& TransferFlags.pending ≠ 0 then 0 else t1.amount) 0
                with _ | e1 <;> rw [hov1] at h
              case some =>
                simp only [Option.some.injEq] at h
                subst h
                exact wouldOverflowAccount_emitted _ _ _ _ hov1
              case none =>
                rcases hov2 : wouldOverflowAccount c 0
                    (if t1.flags &&& TransferFlags.pending ≠ 0 then 0 else t1.amount)
                  with _ | e2 <;> rw [hov2] at h
                case some =>
                  simp only [Option.some.injEq] at h
                  subst h
                  exact wouldOverflowAccount_emitted _ _ _ _ hov2
                case none => simp at h

lemma createTransfersGo_emitted (batch : List Transfer) :
    ∀ (now : Int) (s : LedgerState) (last : Int) (i : Nat)
      (errors : List (Nat × CreateTransferError)),
      (∀ p ∈ errors, EmittedTransferError p.2) →
      ∀ p ∈ (createTransfersGo now s last i batch errors).2, EmittedTransferError p.2 := by
  induction batch with
  | nil =>
    intro now s last i errors hE p hp
    simpa [createTransfersGo] using hE p (by simpa [createTransfersGo] using hp)
  | cons t rest ih =>
    intro now s last i errors hE p hp
    rw [createTransfersGo] at hp
    rcases hone : createTransferOne now s last t with ⟨s1, last1, oe⟩
    rw [hone] at hp
    cases oe with
    | none => exact ih now s1 last1 (i + 1) errors hE p hp
    | some e =>
      refine ih now s1 last1 (i + 1) (errors ++ [(i, e)]) ?_ p hp
      intro q hq
      rcases List.mem_append.mp hq with hq1 | hq2
      · exact hE q hq1
      · rcases List.mem_singleton.mp hq2 with rfl
        exact createTransferOne_emitted now s last t e (by rw [hone])

/-! ### C2: linked chains -/

/-- C2 counterexample: a batch whose first element carries the
`linked` flag and whose second element fails.  The claim predicts
both indices report `linked_event_failed` and neither is applied; in
the code the linked member is inserted and its balance mutation
applied, and only the failing element's own index is reported, with
its own error. -/
theorem c2_counterexample :
    (createTransfers 1 stPlain
        [mkTransfer 20 1 2 5 TransferFlags.linked, mkTransfer 0 1 2 5 0]).2
      = [(1, CreateTransferError.id_must_not_be_zero)]
    ∧ ((createTransfers 1 stPlain
        [mkTransfer 20 1 2 5 TransferFlags.linked, mkTransfer 0 1 2 5 0]).1.accounts.map
          (fun a => a.debits_posted)) = [5, 0]
    ∧ ((createTransfers 1 stPlain
        [mkTransfer 20 1 2 5 TransferFlags.linked, mkTransfer 0 1 2 5 0]).1.transfers.length)
        = 1 := by
  refine ⟨by decide, by decide, by decide⟩

/-- C2 (amended): `createTransfers` has no linked-chain handling at
all: every element is validated and applied independently, and the
`linked_event_failed` / `linked_event_chain_open` codes are never
produced at any index, for any batch and any starting state. -/
theorem c2_no_linked_chain (now : Int) (s : LedgerState) (batch : List Transfer)
    (p : Nat × CreateTransferError) (hp : p ∈ (createTransfers now s batch).2) :
    p.2 ≠ CreateTransferError.linked_event_failed ∧
    p.2 ≠ CreateTransferError.linked_event_chain_open := by
  have h := createTransfersGo_emitted batch now s 0 0 [] (by simp) p hp
  exact ⟨h.1, h.2.1⟩

/-- Witness for C2: a concrete error entry produced by a concrete
batch is not a linked-chain code. -/
theorem c2_no_linked_chain_witness :
    (0, CreateTransferError.id_must_not_be_zero) ∈
      (createTransfers 1 stPlain [mkTransfer 0 1 2 5 0]).2 ∧
    (0, CreateTransferError.id_must_not_be_zero).2 ≠ CreateTransferError.linked_event_failed ∧
    (0, CreateTransferError.id_must_not_be_zero).2 ≠ CreateTransferError.linked_event_chain_open :=
  ⟨by decide, c2_no_linked_chain 1 stPlain [mkTransfer 0 1 2 5 0] _ (by decide)⟩

/-! ### C10: pending overflow codes are unreachable -/

/-- C10: `createTransfers` never reports `overflows_debits_pending`
or `overflows_credits_pending` at any index (the overflow check is
called with debit and credit amounts of zero for `pending`-flagged
transfers, and `wouldOverflowAccount` has no pending-overflow
branches at all), and a pending transfer of amount 100 against an
account whose `debits_pending` is already `2^128 - 1` is accepted,
pushing `debits_pending` past the 128-bit domain to `2^128 + 99`. -/
theorem c10_no_pending_overflow :
    (∀ (now : Int) (s : LedgerState) (batch : List Transfer) (p : Nat × CreateTransferError),
      p ∈ (createTransfers now s batch).2 →
      p.2 ≠ CreateTransferError.overflows_debits_pending ∧
      p.2 ≠ CreateTransferError.overflows_credits_pending)
    ∧ (createTransfers 1 stPendingFull [mkTransfer 10 1 2 100 TransferFlags.pending]).2 = []
    ∧ ((createTransfers 1 stPendingFull
        [mkTransfer 10 1 2 100 TransferFlags.pending]).1.accounts.map
          (fun a => a.debits_pending)) = [2 ^ 128 + 99, 0] := by
  refine ⟨?_, by decide, by decide⟩
  intro now s batch p hp
  have h := createTransfersGo_emitted batch now s 0 0 [] (by simp) p hp
  exact ⟨h.2.2.1, h.2.2.2⟩

/-- Witness for C10: instantiate the universal part on a concrete
batch that produces an error entry. -/
theorem c10_no_pending_overflow_witness :
    (0, CreateTransferError.id_must_not_be_zero) ∈
      (createTransfers 1 stPlain [mkTransfer 0 2 1 7 0]).2 ∧
    (0, CreateTransferError.id_must_not_be_zero).2 ≠ CreateTransferError.overflows_debits_pending ∧
    (0, CreateTransferError.id_must_not_be_zero).2 ≠
      CreateTransferError.overflows_credits_pending :=
  ⟨by decide, c10_no_pending_overflow.1 1 stPlain [mkTransfer 0 2 1 7 0] _ (by decide)⟩

/-! ### C9: zero-amount transfers -/

/-- C9: a transfer with amount 0 that passes the id, timestamp,
account-id and accounts-must-be-different checks is rejected by
`validateTransfer` with the generic `exists` code, and
`createTransfers` reports exactly that code at the element's index
with no state change, for any starting state. -/
theorem c9_zero_amount (t : Transfer)
    (h0 : t.amount = 0)
    (h1 : t.id ≠ 0) (h2 : t.id < 2 ^ 128 - 1)
    (h3 : t.timestamp = 0)
    (h4 : t.debit_account_id ≠ 0) (h5 : t.debit_account_id < 2 ^ 128 - 1)
    (h6 : t.credit_account_id ≠ 0) (h7 : t.credit_account_id < 2 ^ 128 - 1)
    (h8 : t.debit_account_id ≠ t.credit_account_id) :
    validateTransfer t = CreateTransferError.exists ∧
    ∀ (now : Int) (s : LedgerState),
      createTransfers now s [t] = (s, [(0, CreateTransferError.exists)]) := by
  have hval : validateTransfer t = CreateTransferError.exists := by
    unfold validateTransfer
    rw [if_neg h1, if_neg (not_le.mpr h2), if_neg (not_not_intro h3), if_neg h4,
        if_neg (not_le.mpr h5), if_neg h6, if_neg (not_le.mpr h7), if_neg h8, if_pos h0]
  refine ⟨hval, ?_⟩
  intro now s
  simp [createTransfers, createTransfersGo, createTransferOne, hval]

/-- Witness for C9 at a concrete zero-amount transfer. -/
theorem c9_zero_amount_witness :
    validateTransfer (mkTransfer 1 2 3 0 0) = CreateTransferError.exists ∧
    createTransfers 1 stPlain [mkTransfer 1 2 3 0 0]
      = (stPlain, [(0, CreateTransferError.exists)]) :=
  ⟨(c9_zero_amount (mkTransfer 1 2 3 0 0) (by decide) (by decide) (by decide) (by decide)
      (by decide) (by decide) (by decide) (by decide) (by decide)).1,
   (c9_zero_amount (mkTransfer 1 2 3 0 0) (by decide) (by decide) (by decide) (by decide)
      (by decide) (by decide) (by decide) (by decide) (by decide)).2 1 stPlain⟩

/-! ### C5: validation priority order -/

/-- C5 counterexample: the claim says relational rules come last, so
a transfer with equal debit and credit accounts and ledger 0 should
report `ledger_must_not_be_zero`; `validateTransfer` checks
`accounts_must_be_different` before the ledger-zero rule. -/
theorem c5_counterexample :
    validateTransfer { mkTransfer 1 2 2 5 0 with ledger := 0 }
      = CreateTransferError.accounts_must_be_different
    ∧ CreateTransferError.accounts_must_be_different
      ≠ CreateTransferError.ledger_must_not_be_zero := by
  refine ⟨by decide, by decide⟩

/-- C5 (amended): `validateAccount` reports `id_must_not_be_zero`
first for every account with id 0 (in particular one whose ledger is
also 0), but `validateTransfer` checks the relational account-id
rules before ledger/code: every transfer passing the id and timestamp
checks whose debit and credit accounts coincide reports
`accounts_must_be_different` even when its ledger is 0. -/
theorem c5_validation_priority :
    (∀ a : Account, a.id = 0 → validateAccount a = CreateAccountError.id_must_not_be_zero)
    ∧ (∀ t : Transfer, t.id ≠ 0 → t.id < 2 ^ 128 - 1 → t.timestamp = 0 →
        t.debit_account_id ≠ 0 → t.debit_account_id < 2 ^ 128 - 1 →
        t.credit_account_id ≠ 0 → t.credit_account_id < 2 ^ 128 - 1 →
        t.debit_account_id = t.credit_account_id →
        validateTransfer t = CreateTransferError.accounts_must_be_different) := by
  constructor
  · intro a h
    unfold validateAccount
    rw [if_pos h]
  · intro t h1 h2 h3 h4 h5 h6 h7 h8
    unfold validateTransfer
    rw [if_neg h1, if_neg (not_le.mpr h2), if_neg (not_not_intro h3), if_neg h4,
        if_neg (not_le.mpr h5), if_neg h6, if_neg (not_le.mpr h7), if_pos h8]

/-- Witness for C5: both priority facts at concrete records. -/
theorem c5_validation_priority_witness :
    validateAccount { mkAccount 0 0 with ledger := 0, timestamp := 0 }
      = CreateAccountError.id_must_not_be_zero
    ∧ validateTransfer { mkTransfer 1 2 2 5 0 with ledger := 0 }
      = CreateTransferError.accounts_must_be_different :=
  ⟨c5_validation_priority.1 { mkAccount 0 0 with ledger := 0, timestamp := 0 } (by decide),
   c5_validation_priority.2 { mkTransfer 1 2 2 5 0 with ledger := 0 } (by decide) (by decide)
     (by decide) (by decide) (by decide) (by decide) (by decide) (by decide)⟩

/-! ### C6: existence reconciliation -/

/-- C6 counterexample: an existing transfer differing from the new
request in both `user_data_128` and `debit_account_id`.  The claim's
comparison order puts user-data before the transfer-specific fields,
predicting `exists_with_different_user_data_128`; the code compares
`debit_account_id` immediately after `flags`. -/
theorem c6_counterexample :
    validateTransferExists (mkTransfer 1 2 3 5 0)
        { mkTransfer 1 4 3 5 0 with user_data_128 := 7 }
      = CreateTransferError.exists_with_different_debit_account_id
    ∧ CreateTransferError.exists_with_different_debit_account_id
      ≠ CreateTransferError.exists_with_different_user_data_128 := by
  refine ⟨by decide, by decide⟩

/-- C6 (amended): the account reconciler compares
flags → user-data-128 → user-data-64 → user-data-32 → ledger → code
and returns the first difference, the transfer reconciler compares
flags → debit-account → credit-account → amount → pending-id →
user-data-128 → user-data-64 → user-data-32 → timeout → ledger → code;
when every compared field matches the result is the generic `exists`
and the create loop leaves the state untouched (idempotent
duplicate). -/
theorem c6_existence_reconciler :
    (∀ e n : Account,
      (e.flags ≠ n.flags → validateAccountExists e n = .exists_with_different_flags)
      ∧ (e.flags = n.flags → e.user_data_128 ≠ n.user_data_128 →
          validateAccountExists e n = .exists_with_different_user_data_128)
      ∧ (e.flags = n.flags → e.user_data_128 = n.user_data_128 →
          e.user_data_64 ≠ n.user_data_64 →
          validateAccountExists e n = .exists_with_different_user_data_64)
      ∧ (e.flags = n.flags → e.user_data_128 = n.user_data_128 →
          e.user_data_64 = n.user_data_64 → e.user_data_32 ≠ n.user_data_32 →
          validateAccountExists e n = .exists_with_different_user_data_32)
      ∧ (e.flags = n.flags → e.user_data_128 = n.user_data_128 →
          e.user_data_64 = n.user_data_64 → e.user_data_32 = n.user_data_32 →
          e.ledger ≠ n.ledger → validateAccountExists e n = .exists_with_different_ledger)
      ∧ (e.flags = n.flags → e.user_data_128 = n.user_data_128 →
          e.user_data_64 = n.user_data_64 → e.user_data_32 = n.user_data_32 →
          e.ledger = n.ledger → e.code ≠ n.code →
          validateAccountExists e n = .exists_with_different_code)
      ∧ (e.flags = n.flags → e.user_data_128 = n.user_data_128 →
          e.user_data_64 = n.user_data_64 → e.user_data_32 = n.user_data_32 →
          e.ledger = n.ledger → e.code = n.code →
          validateAccountExists e n = .exists))
    ∧ (∀ e n : Transfer,
      (e.flags ≠ n.flags → validateTransferExists e n = .exists_with_different_flags)
      ∧ (e.flags = n.flags → e.debit_account_id ≠ n.debit_account_id →
          validateTransferExists e n = .exists_with_different_debit_account_id)
      ∧ (e.flags = n.flags → e.debit_account_id = n.debit_account_id →
          e.credit_account_id ≠ n.credit_account_id →
          validateTransferExists e n = .exists_with_different_credit_account_id)
      ∧ (e.flags = n.flags → e.debit_account_id = n.debit_account_id →
          e.credit_account_id = n.credit_account_id → e.amount ≠ n.amount →
          validateTransferExists e n = .exists_with_different_amount)
      ∧ (e.flags = n.flags → e.debit_account_id = n.debit_account_id →
          e.credit_account_id = n.credit_account_id → e.amount = n.amount →
          e.pending_id ≠ n.pending_id →
          validateTransferExists e n = .exists_with_different_pending_id)
      ∧ (e.flags = n.flags → e.debit_account_id = n.debit_account_id →
          e.credit_account_id = n.credit_account_id → e.amount = n.amount →
          e.pending_id = n.pending_id → e.user_data_128 ≠ n.user_data_128 →
          validateTransferExists e n = .exists_with_different_user_data_128)
      ∧ (e.flags = n.flags → e.debit_account_id = n.debit_account_id →
          e.credit_account_id = n.credit_account_id → e.amount = n.amount →
          e.pending_id = n.pending_id → e.user_data_128 = n.user_data_128 →
          e.user_data_64 ≠ n.user_data_64 →
          validateTransferExists e n = .exists_with_different_user_data_64)
      ∧ (e.flags = n.flags → e.debit_account_id = n.debit_account_id →
          e.credit_account_id = n.credit_account_id → e.amount = n.amount →
          e.pending_id = n.pending_id → e.user_data_128 = n.user_data_128 →
          e.user_data_64 = n.user_data_64 → e.user_data_32 ≠ n.user_data_32 →
          validateTransferExists e n = .exists_with_different_user_data_32)
      ∧ (e.flags = n.flags → e.debit_account_id = n.debit_account_id →
          e.credit_account_id = n.credit_account_id → e.amount = n.amount →
          e.pending_id = n.pending_id → e.user_data_128 = n.user_data_128 →
          e.user_data_64 = n.user_data_64 → e.user_data_32 = n.user_data_32 →
          e.timeout ≠ n.timeout →
          validateTransferExists e n = .exists_with_different_timeout)
      ∧ (e.flags = n.flags → e.debit_account_id = n.debit_account_id →
          e.credit_account_id = n.credit_account_id → e.amount = n.amount →
          e.pending_id = n.pending_id → e.user_data_128 = n.user_data_128 →
          e.user_data_64 = n.user_data_64 → e.user_data_32 = n.user_data_32 →
          e.timeout = n.timeout → e.ledger ≠ n.ledger →
          validateTransferExists e n = .exists_with_different_ledger)
      ∧ (e.flags = n.flags → e.debit_account_id = n.debit_account_id →
          e.credit_account_id = n.credit_account_id → e.amount = n.amount →
          e.pending_id = n.pending_id → e.user_data_128 = n.user_data_128 →
          e.user_data_64 = n.user_data_64 → e.user_data_32 = n.user_data_32 →
          e.timeout = n.timeout → e.ledger = n.ledger → e.code ≠ n.code →
          validateTransferExists e n = .exists_with_different_code)
      ∧ (e.flags = n.flags → e.debit_account_id = n.debit_account_id →
          e.credit_account_id = n.credit_account_id → e.amount = n.amount →
          e.pending_id = n.pending_id → e.user_data_128 = n.user_data_128 →
          e.user_data_64 = n.user_data_64 → e.user_data_32 = n.user_data_32 →
          e.timeout = n.timeout → e.ledger = n.ledger → e.code = n.code →
          validateTransferExists e n = .exists))
    ∧ (∀ (now : Int) (s : LedgerState) (a existing : Account),
        validateAccount a = CreateAccountError.ok →
        lookupAccount s a.id = some existing →
        createAccounts now s [a] = (s, [(0, validateAccountExists existing a)]))
    ∧ (∀ (now : Int) (s : LedgerState) (t existing : Transfer),
        validateTransfer t = CreateTransferError.ok →
        lookupTransfer s t.id = some existing →
        createTransfers now s [t] = (s, [(0, validateTransferExists existing t)])) := by
  refine ⟨?_, ?_, ?_, ?_⟩
  · intro e n
    unfold validateAccountExists
    refine ⟨fun h1 => by rw [if_pos h1],
      fun h1 h2 => by rw [if_neg (not_not_intro h1), if_pos h2],
      fun h1 h2 h3 => by
        rw [if_neg (not_not_intro h1), if_neg (not_not_intro h2), if_pos h3],
      fun h1 h2 h3 h4 => by
        rw [if_neg (not_not_intro h1), if_neg (not_not_intro h2),
          if_neg (not_not_intro h3), if_pos h4],
      fun h1 h2 h3 h4 h5 => by
        rw [if_neg (not_not_intro h1), if_neg (not_not_intro h2),
          if_neg (not_not_intro h3), if_neg (not_not_intro h4), if_pos h5],
      fun h1 h2 h3 h4 h5 h6 => by
        rw [if_neg (not_not_intro h1), if_neg (not_not_intro h2),
          if_neg (not_not_intro h3), if_neg (not_not_intro h4),
          if_neg (not_not_intro h5), if_pos h6],
      fun h1 h2 h3 h4 h5 h6 => by
        rw [if_neg (not_not_intro h1), if_neg (not_not_intro h2),
          if_neg (not_not_intro h3), if_neg (not_not_intro h4),
          if_neg (not_not_intro h5), if_neg (not_not_intro h6)]⟩
  · intro e n
    unfold validateTransferExists
    refine ⟨fun h1 => by rw [if_pos h1],
      fun h1 h2 => by rw [if_neg (not_not_intro h1), if_pos h2],
      fun h1 h2 h3 => by
        rw [if_neg (not_not_intro h1), if_neg (not_not_intro h2), if_pos h3],
      fun h1 h2 h3 h4 => by
        rw [if_neg (not_not_intro h1), if_neg (not_not_intro h2),
          if_neg (not_not_intro h3), if_pos h4],
      fun h1 h2 h3 h4 h5 => by
        rw [if_neg (not_not_intro h1), if_neg (not_not_intro h2),
          if_neg (not_not_intro h3), if_neg (not_not_intro h4), if_pos h5],
      fun h1 h2 h3 h4 h5 h6 => by
        rw [if_neg (not_not_intro h1), if_neg (not_not_intro h2),
          if_neg (not_not_intro h3), if_neg (not_not_intro h4),
          if_neg (not_not_intro h5), if_pos h6],
      fun h1 h2 h3 h4 h5 h6 h7 => by
        rw [if_neg (not_not_intro h1), if_neg (not_not_intro h2),
          if_neg (not_not_intro h3), if_neg (not_not_intro h4),
          if_neg (not_not_intro h5), if_neg (not_not_intro h6), if_pos h7],
      fun h1 h2 h3 h4 h5 h6 h7 h8 => by
        rw [if_neg (not_not_intro h1), if_neg (not_not_intro h2),
          if_neg (not_not_intro h3), if_neg (not_not_intro h4),
          if_neg (not_not_intro h5), if_neg (not_not_intro h6),
          if_neg (not_not_intro h7), if_pos h8],
      fun h1 h2 h3 h4 h5 h6 h7 h8 h9 => by
        rw [if_neg (not_not_intro h1), if_neg (not_not_intro h2),
          if_neg (not_not_intro h3), if_neg (not_not_intro h4),
          if_neg (not_not_intro h5), if_neg (not_not_intro h6),
          if_neg (not_not_intro h7), if_neg (not_not_intro h8), if_pos h9],
      fun h1 h2 h3 h4 h5 h6 h7 h8 h9 h10 => by
        rw [if_neg (not_not_intro h1), if_neg (not_not_intro h2),
          if_neg (not_not_intro h3), if_neg (not_not_intro h4),
          if_neg (not_not_intro h5), if_neg (not_not_intro h6),
          if_neg (not_not_intro h7), if_neg (not_not_intro h8),
          if_neg (not_not_intro h9), if_pos h10],
      fun h1 h2 h3 h4 h5 h6 h7 h8 h9 h10 h11 => by
        rw [if_neg (not_not_intro h1), if_neg (not_not_intro h2),
          if_neg (not_not_intro h3), if_neg (not_not_intro h4),
          if_neg (not_not_intro h5), if_neg (not_not_intro h6),
          if_neg (not_not_intro h7), if_neg (not_not_intro h8),
          if_neg (not_not_intro h9), if_neg (not_not_intro h10), if_pos h11],
      fun h1 h2 h3 h4 h5 h6 h7 h8 h9 h10 h11 => by
        rw [if_neg (not_not_intro h1), if_neg (not_not_intro h2),
          if_neg (not_not_intro h3), if_neg (not_not_intro h4),
          if_neg (not_not_intro h5), if_neg (not_not_intro h6),
          if_neg (not_not_intro h7), if_neg (not_not_intro h8),
          if_neg (not_not_intro h9), if_neg (not_not_intro h10),
          if_neg (not_not_intro h11)]⟩
  · intro now s a existing hv hl
    simp [createAccounts, createAccountsGo, createAccountOne, hv, hl]
  · intro now s t existing hv hl
    simp [createTransfers, createTransfersGo, createTransferOne, hv, hl]

/-- Witness for C6: the same account created again over a state that
already stores it reconciles to the plain `exists` with no state
change. -/
theorem c6_existence_reconciler_witness :
    createAccounts 1 stPlain [{ mkAccount 1 0 with timestamp := 0 }]
      = (stPlain, [(0, CreateAccountError.exists)]) :=
  (c6_existence_reconciler.2.2.1 1 stPlain { mkAccount 1 0 with timestamp := 0 }
    (mkAccount 1 0) (by decide) (by decide)).trans (by decide)

/-! ### C4: pending-transfer validation for post / void -/

/-- C4: for a posting or voiding transfer whose two accounts exist,
share one ledger with the transfer and are not closed,
`validateTransferAccounts` rejects with `pending_transfer_not_found`
when no stored transfer matches `pending_id`, with
`pending_transfer_not_pending` when the stored status is not
`pending`, with the matching `pending_transfer_has_different_*` code
for the first differing field among debit account, credit account,
ledger, code; a posting amount above the pending amount is rejected
with `exceeds_pending_transfer_amount` while a smaller amount passes
(a partial post), and a voiding amount different from the pending
amount is rejected with `pending_transfer_has_different_amount` while
an equal amount passes. -/
theorem c4_pending_validation (t : Transfer) (d c : Account)
    (hl1 : d.ledger = c.ledger) (hl2 : t.ledger = d.ledger)
    (hc1 : d.flags &&& AccountFlags.closed = 0) (hc2 : c.flags &&& AccountFlags.closed = 0)
    (hpv : t.flags &&& (TransferFlags.post_pending_transfer |||
        TransferFlags.void_pending_transfer) ≠ 0) :
    (∀ pS, validateTransferAccounts t (some d) (some c) none pS
      = CreateTransferError.pending_transfer_not_found)
    ∧ (∀ (p : Transfer) (st : Option TransferPendingStatus), st ≠ some .pending →
        validateTransferAccounts t (some d) (some c) (some p) st
          = CreateTransferError.pending_transfer_not_pending)
    ∧ (∀ p : Transfer, p.debit_account_id ≠ t.debit_account_id →
        validateTransferAccounts t (some d) (some c) (some p) (some .pending)
          = CreateTransferError.pending_transfer_has_different_debit_account_id)
    ∧ (∀ p : Transfer, p.debit_account_id = t.debit_account_id →
        p.credit_account_id ≠ t.credit_account_id →
        validateTransferAccounts t (some d) (some c) (some p) (some .pending)
          = CreateTransferError.pending_transfer_has_different_credit_account_id)
    ∧ (∀ p : Transfer, p.debit_account_id = t.debit_account_id →
        p.credit_account_id = t.credit_account_id → p.ledger ≠ t.ledger →
        validateTransferAccounts t (some d) (some c) (some p) (some .pending)
          = CreateTransferError.pending_transfer_has_different_ledger)
    ∧ (∀ p : Transfer, p.debit_account_id = t.debit_account_id →
        p.credit_account_id = t.credit_account_id → p.ledger = t.ledger →
        p.code ≠ t.code →
        validateTransferAccounts t (some d) (some c) (some p) (some .pending)
          = CreateTransferError.pending_transfer_has_different_code)
    ∧ (∀ p : Transfer, p.debit_account_id = t.debit_account_id →
        p.credit_account_id = t.credit_account_id → p.ledger = t.ledger →
        p.code = t.code → t.flags &&& TransferFlags.post_pending_transfer ≠ 0 →
        t.amount > p.amount →
        validateTransferAccounts t (some d) (some c) (some p) (some .pending)
          = CreateTransferError.exceeds_pending_transfer_amount)
    ∧ (∀ p : Transfer, p.debit_account_id = t.debit_account_id →
        p.credit_account_id = t.credit_account_id → p.ledger = t.ledger →
        p.code = t.code → t.flags &&& TransferFlags.post_pending_transfer ≠ 0 →
        t.amount ≤ p.amount →
        canDebitAccount d t.amount = true → canCreditAccount c t.amount = true →
        validateTransferAccounts t (some d) (some c) (some p) (some .pending)
          = CreateTransferError.ok)
    ∧ (∀ p : Transfer, p.debit_account_id = t.debit_account_id →
        p.credit_account_id = t.credit_account_id → p.ledger = t.ledger →
        p.code = t.code → t.flags &&& TransferFlags.post_pending_transfer = 0 →
        t.flags &&& TransferFlags.void_pending_transfer ≠ 0 →
        t.amount ≠ p.amount →
        validateTransferAccounts t (some d) (some c) (some p) (some .pending)
          = CreateTransferError.pending_transfer_has_different_amount)
    ∧ (∀ p : Transfer, p.debit_account_id = t.debit_account_id →
        p.credit_account_id = t.credit_account_id → p.ledger = t.ledger →
        p.code = t.code → t.flags &&& TransferFlags.post_pending_transfer = 0 →
        t.flags &&& TransferFlags.void_pending_transfer ≠ 0 →
        t.amount = p.amount →
        canDebitAccount d t.amount = true → canCreditAccount c t.amount = true →
        validateTransferAccounts t (some d) (some c) (some p) (some .pending)
          = CreateTransferError.ok) := by
  refine ⟨?_, ?_, ?_, ?_, ?_, ?_, ?_, ?_, ?_, ?_⟩
  · intro pS
    simp [validateTransferAccounts, hl1, hl2, hc1, hc2, hpv]
  · intro p st hst
    simp [validateTransferAccounts, hl1, hl2, hc1, hc2, hpv, hst]
  · intro p h1
    simp [validateTransferAccounts, hl1, hl2, hc1, hc2, hpv, h1]
  · intro p h1 h2
    simp [validateTransferAccounts, hl1, hl2, hc1, hc2, hpv, h1, h2]
  · intro p h1 h2 h3
    have h3c : p.ledger ≠ c.ledger := fun hh => h3 (by rw [hl2, hl1, hh])
    simp [validateTransferAccounts, hl1, hl2, hc1, hc2, hpv, h1, h2, h3, h3c]
  · intro p h1 h2 h3 h4
    simp [validateTransferAccounts, hl1, hl2, hc1, hc2, hpv, h1, h2, h3, h4]
  · intro p h1 h2 h3 h4 hpost hamt
    simp [validateTransferAccounts, hl1, hl2, hc1, hc2, hpv, h1, h2, h3, h4, hpost, hamt]
  · intro p h1 h2 h3 h4 hpost hamt hcd hcc2
    simp [validateTransferAccounts, hl1, hl2, hc1, hc2, hpv, h1, h2, h3, h4, hpost,
      not_lt.mpr hamt, hcd, hcc2]
  · intro p h1 h2 h3 h4 hpost hvd hamt
    simp [validateTransferAccounts, hl1, hl2, hc1, hc2, hpv, h1, h2, h3, h4, hpost, hvd, hamt]
  · intro p h1 h2 h3 h4 hpost hvd hamt hcd hcc2
    have hcd2 : canDebitAccount d p.amount = true := hamt ▸ hcd
    have hcc3 : canCreditAccount c p.amount = true := hamt ▸ hcc2
    simp [validateTransferAccounts, hl1, hl2, hc1, hc2, hpv, h1, h2, h3, h4, hpost, hvd,
      hamt, hcd, hcc2, hcd2, hcc3]

/-- Witness for C4: a partial post (200 against a pending 300) with
matching accounts, ledger and code passes validation. -/
theorem c4_pending_validation_witness :
    validateTransferAccounts
        { mkTransfer 31 1 2 200 TransferFlags.post_pending_transfer with pending_id := 30 }
        (some (mkAccount 1 0)) (some (mkAccount 2 0))
        (some { mkTransfer 30 1 2 300 TransferFlags.pending with timestamp := 123 })
        (some .pending) = CreateTransferError.ok :=
  (c4_pending_validation
      { mkTransfer 31 1 2 200 TransferFlags.post_pending_transfer with pending_id := 30 }
      (mkAccount 1 0) (mkAccount 2 0)
      (by decide) (by decide) (by decide) (by decide) (by decide)).2.2.2.2.2.2.2.1
    { mkTransfer 30 1 2 300 TransferFlags.pending with timestamp := 123 }
    (by decide) (by decide) (by decide) (by decide) (by decide) (by decide) (by decide) (by decide)

/-! ### C7: monotonic id generation -/

lemma idStep_sound (s : IdState) (now fresh : Nat) (v : Nat) (s1 : IdState)
    (hlast : s.last < 2 ^ 48) (hrand : s.rand < 2 ^ 80)
    (hnow : now < 2 ^ 48) (hfresh : fresh < 2 ^ 80)
    (h : idStep s now fresh = some (v, s1)) :
    s.last * 2 ^ 80 + s.rand < v ∧ v = s1.last * 2 ^ 80 + s1.rand ∧
    s1.last < 2 ^ 48 ∧ s1.rand < 2 ^ 80 := by
  unfold idStep at h
  by_cases hc : now ≤ s.last
  · simp only [hc, if_true] at h
    split_ifs at h with h2
    · simp only [Option.some.injEq, Prod.mk.injEq] at h
      obtain ⟨hv, hs⟩ := h
      subst hs
      simp only []
      constructor
      · omega
      · constructor
        · omega
        · exact ⟨hlast, by omega⟩
  · simp only [hc, if_false] at h
    split_ifs at h with h2
    · simp only [Option.some.injEq, Prod.mk.injEq] at h
      obtain ⟨hv, hs⟩ := h
      subst hs
      simp only []
      constructor
      · omega
      · constructor
        · omega
        · exact ⟨hnow, by omega⟩

lemma runId_increasing (calls : List (Nat × Nat)) :
    ∀ s : IdState, s.last < 2 ^ 48 → s.rand < 2 ^ 80 →
    (∀ p ∈ calls, p.1 < 2 ^ 48 ∧ p.2 < 2 ^ 80) →
    List.Pairwise (· < ·) (runId s calls) ∧
    ∀ v ∈ runId s calls, s.last * 2 ^ 80 + s.rand < v := by
  induction calls with
  | nil =>
    intro s _ _ _
    simp [runId]
  | cons hd rest ih =>
    intro s hl hr hb
    obtain ⟨hnow, hfresh⟩ := hb hd (List.mem_cons_self hd rest)
    rcases hd with ⟨now, fresh⟩
    rw [runId]
    rcases hstep : idStep s now fresh with _ | ⟨v, s1⟩
    · simp
    · obtain ⟨hgt, hveq, hl1, hr1⟩ := idStep_sound s now fresh v s1 hl hr hnow hfresh hstep
      obtain ⟨hpw, hlb⟩ := ih s1 hl1 hr1 (fun p hp => hb p (List.mem_cons_of_mem _ hp))
      constructor
      · refine List.Pairwise.cons ?_ hpw
        intro w hw
        have := hlb w hw
        omega
      · intro w hw
        rcases List.mem_cons.mp hw with rfl | hw2
        · exact hgt
        · have := hlb w hw2
          omega

/-- C7: starting from the generator's initial state, every id
returned by a sequence of `id()` calls (millisecond clock readings
below `2^48`, drawn randomness below `2^80`) is strictly greater than
every id returned earlier, including calls within one millisecond;
and a call throws exactly when the held 80-bit counter (the stored
random for a repeated millisecond, the freshly drawn random for a new
one) is at its maximum, so that the increment carries out of 80
bits. -/
theorem c7_monotonic_ids :
    (∀ calls : List (Nat × Nat), (∀ p ∈ calls, p.1 < 2 ^ 48 ∧ p.2 < 2 ^ 80) →
      List.Pairwise (· < ·) (runId { last := 0, rand := 0 } calls))
    ∧ (∀ (s : IdState) (now fresh : Nat), s.rand < 2 ^ 80 → fresh < 2 ^ 80 →
        (idStep s now fresh = none ↔
          (if now ≤ s.last then s.rand else fresh) = 2 ^ 80 - 1)) := by
  constructor
  · intro calls hb
    exact (runId_increasing calls { last := 0, rand := 0 } (by norm_num) (by norm_num) hb).1
  · intro s now fresh hr hf
    unfold idStep
    by_cases hc : now ≤ s.last <;> simp only [hc, if_true, if_false] <;>
      split_ifs <;> simp_all <;> omega

/-- Witness for C7: three concrete calls, two of them within the same
millisecond, produce strictly increasing ids. -/
theorem c7_monotonic_ids_witness :
    List.Pairwise (· < ·) (runId { last := 0, rand := 0 } [(5, 10), (5, 99), (7, 3)]) :=
  c7_monotonic_ids.1 [(5, 10), (5, 99), (7, 3)] (by decide)

/-! ### C8: id round-trip -/

/-- C8: for every timestamp below `2^48` and random component below
`2^80`, parsing the identifier built by `createId` returns exactly
the original pair. -/
theorem c8_id_roundtrip (t r : Nat) (ht : t < 2 ^ 48) (hr : r < 2 ^ 80) :
    parseId (createId t r) = (t, r) := by
  unfold createId parseId
  simp only [Prod.mk.injEq]
  constructor <;> omega

/-- Witness for C8 at one concrete timestamp and random value. -/
theorem c8_id_roundtrip_witness :
    parseId (createId 123456789 987654321987654321) = (123456789, 987654321987654321) :=
  c8_id_roundtrip 123456789 987654321987654321 (by norm_num) (by norm_num)
